import Mathlib

/-!
Verification of `usdautoguide` (src/usdautoguide/auto_guide.py) against its
natural-language specification.

The Python module computes an axis-aligned world bounding box of a USD prim
subtree, derives the 8 box corners in a fixed order, and authors a 6-quad cube
mesh ("guide") into a target stage.  The USD library (`pxr`: `Usd`, `UsdGeom`,
`Gf`, `Sdf`) is the external Scene Store collaborator; it is shallowly embedded
here following its documented contract, while the module's own functions
(`_get_extent`, `_get_vertex_bbox`, `convert_to_float`, `_create_cube_mesh`,
`create_auto_guide`) are ported line by line.

Numbers are modelled as exact rationals (`ℚ`); Python's `str` rendering of a
float is modelled by `pyRender`, which chooses scientific notation exactly when
CPython's repr does (decimal exponent < -4 or ≥ 16, with a normalized mantissa
`1 ≤ |m| < 10`).
-/

/-- Fuel-driven floor of log base 10 on naturals: largest `k` with `10 ^ k ≤ n`
(0 for `n < 10`).  Structural in the fuel so that the kernel can evaluate it. -/
def log10fuel : Nat → Nat → Nat
  | 0, _ => 0
  | f + 1, n => if n < 10 then 0 else log10fuel f (n / 10) + 1

/-- `natLog10 n` is the number of decimal digits of `n` minus one (0 at 0). -/
def natLog10 (n : Nat) : Nat := log10fuel n n

/-- Fuel-driven ceiling search: smallest `k` with `d ≤ n * 10 ^ k`. -/
def clog10fuel : Nat → Nat → Nat → Nat
  | 0, _, _ => 0
  | f + 1, n, d => if d ≤ n then 0 else clog10fuel f (n * 10) d + 1

/-- Smallest `k` with `d ≤ n * 10 ^ k` (for `1 ≤ n`, fuel `d` suffices). -/
def fracLog10 (n d : Nat) : Nat := clog10fuel d n d

/-- Floor of log base 10 of a positive rational: the decimal exponent of its
normalized scientific form. -/
def floorLog10 (r : ℚ) : ℤ :=
  if 1 ≤ r then (natLog10 ⌊r⌋.toNat : ℤ)
  else -(fracLog10 r.num.toNat r.den : ℤ)

/-- The shape of CPython's `str`/`repr` of a finite float: either positional
("plain", no exponent marker) or scientific ("sci", with an `e` marker, a
mantissa and a decimal exponent). -/
inductive PyFloatRepr where
  | plain (val : ℚ)
  | sci (mantissa : ℚ) (exp10 : ℤ)
deriving DecidableEq

/-- Models CPython's rendering choice for a finite float value: scientific
notation is used exactly when the decimal exponent is < -4 or ≥ 16, with the
mantissa normalized to `1 ≤ |m| < 10`; otherwise the value renders
positionally, without an `e` marker. -/
def pyRender (q : ℚ) : PyFloatRepr :=
  if q = 0 then .plain 0
  else if floorLog10 |q| < -4 ∨ 16 ≤ floorLog10 |q| then
    .sci (q / 10 ^ floorLog10 |q|) (floorLog10 |q|)
  else .plain q

/-- Port of `convert_to_float` (auto_guide.py lines 66-72): if `str(number)`
contains an `"e"`, split at the `"e"` and return the float value of the part
before it (the mantissa); otherwise return the number unchanged. -/
def convert_to_float (number : ℚ) : ℚ :=
  match pyRender number with
  | .plain _ => number
  | .sci mantissa _ => mantissa

/-! ## The Scene Store model (pxr: Gf, Usd, UsdGeom) -/

/-- A 3d point/vector (`Gf.Vec3d`), as exact rationals. -/
abbrev Vec3 : Type := ℚ × ℚ × ℚ

/-- An axis-aligned 3d range (`Gf.Range3d`). -/
structure Range3d where
  min : Vec3
  max : Vec3
deriving DecidableEq

/-- The largest finite IEEE-754 double, `(2^53 - 1) * 2^971` (DBL_MAX), as a
decimal literal so the kernel can evaluate comparisons against it directly.
`Gf.Range3d`'s empty range is `[(DBL_MAX, ...), (-DBL_MAX, ...)]`, the
identity of `UnionWith` on representable values. -/
def dblMax : ℚ := 179769313486231570814527423731704356798070567525844996598917476803157260780028538760589558632766878171540458953514382464234321326889464182768467546703537516986049910576551282076245490090389328944075868508455133942304583236903222948165808559332123348274797826204144723168738177180919299881250404026184124858368

/-- The default-constructed (empty) `Gf.Range3d`. -/
def emptyRange : Range3d :=
  { min := (dblMax, dblMax, dblMax), max := (-dblMax, -dblMax, -dblMax) }

/-- `Gf.Range3d.UnionWith`: componentwise min of mins and max of maxes. -/
def unionRange (a b : Range3d) : Range3d :=
  { min := (min a.min.1 b.min.1, min a.min.2.1 b.min.2.1, min a.min.2.2 b.min.2.2)
    max := (max a.max.1 b.max.1, max a.max.2.1 b.max.2.1, max a.max.2.2 b.max.2.2) }

/-- One geometry prim contributing to a subtree's bound, with its effective
(inheritance-resolved) purpose token, effective visibility, and its
world-space extent.  World transforms are taken as already applied, so the
aligned box of the subtree bound is the union of these extents. -/
structure GeomRecord where
  purpose : String
  visible : Bool
  extent : Range3d
deriving DecidableEq

/-- A prim (`Usd.Prim`) as seen by the bounds query: the flattened list of
geometry records of the prim and its full subtree. -/
structure PrimNode where
  subtree : List GeomRecord
deriving DecidableEq

/-- A prim handle: `none` models an invalid `Usd.Prim` (e.g. the result of
`GetPrimAtPath` on an unresolvable path); a valid handle carries the prim's
path and node. -/
def Prim : Type := Option (String × PrimNode)

/-- `Usd.Prim.GetPath` (an invalid prim has the empty path). -/
def Prim.GetPath (p : Prim) : String :=
  match p with
  | none => ""
  | some (path, _) => path

/-- A source stage (`Usd.Stage` opened from an existing file). -/
structure SourceStage where
  prims : List (String × PrimNode)
  defaultPrimPath : Option String
deriving DecidableEq

/-- Association-list lookup of a prim by path. -/
def findPrim : List (String × PrimNode) → String → Option PrimNode
  | [], _ => none
  | (q, n) :: rest, p => if q = p then some n else findPrim rest p

/-- `Usd.Stage.GetPrimAtPath`: returns an invalid prim (`none`) when the path
does not resolve — it does not raise. -/
def SourceStage.GetPrimAtPath (s : SourceStage) (path : String) : Prim :=
  match findPrim s.prims path with
  | none => none
  | some n => some (path, n)

/-- `Usd.Stage.GetDefaultPrim`: the prim named by the stage's default-prim
metadata, invalid (`none`) when unset or unresolvable. -/
def SourceStage.GetDefaultPrim (s : SourceStage) : Prim :=
  match s.defaultPrimPath with
  | none => none
  | some p => s.GetPrimAtPath p

/-- `Usd.TimeCode`: the default (unvarying) sample or a numeric sample. -/
inductive TimeCode where
  | default
  | numeric (t : ℚ)
deriving DecidableEq

/-- The constructor arguments of a `UsdGeom.BBoxCache`. -/
structure BBoxCacheConfig where
  time : TimeCode
  includedPurposes : List String
  useExtentsHint : Bool
  ignoreVisibility : Bool
deriving DecidableEq

/-- The purpose/visibility filter of `UsdGeom.BBoxCache`: a geometry record
contributes iff its purpose is in `includedPurposes` and it is either visible
or the cache was built with `ignoreVisibility=True` (with
`ignoreVisibility=False`, invisible prims are culled from the bound). -/
def includeRecord (c : BBoxCacheConfig) (g : GeomRecord) : Bool :=
  c.includedPurposes.contains g.purpose && (c.ignoreVisibility || g.visible)

/-- Union of the extents of the records admitted by the filter. -/
def boundOfRecords (c : BBoxCacheConfig) (gs : List GeomRecord) : Range3d :=
  (gs.filter (includeRecord c)).foldl (fun acc g => unionRange acc g.extent) emptyRange

/-- `UsdGeom.BBoxCache.ComputeWorldBound`: raises on an invalid prim,
otherwise returns the filtered union bound of the prim's subtree. -/
def computeWorldBound (c : BBoxCacheConfig) (prim : Prim) : Except String Range3d :=
  match prim with
  | none => .error "Invalid prim"
  | some (_, node) => .ok (boundOfRecords c node.subtree)

/-- `Gf.BBox3d.ComputeAlignedBox`; world transforms are modelled as already
applied in `GeomRecord.extent`, so this is the identity on the union bound. -/
def computeAlignedBox (r : Range3d) : Range3d := r

/-! ## The module under verification: error type and `_get_extent` -/

/-- The exceptions raised by auto_guide.py (`FileNotFoundError`, `ValueError`)
together with the distinct node-resolution failure named by the spec's error
taxonomy (§7 `NodeNotFoundError`), which lets the embedding state whether the
code ever produces such a distinct failure. -/
inductive AGError where
  | fileNotFound (msg : String)
  | nodeNotFound (msg : String)
  | valueError (msg : String)
deriving DecidableEq

/-- `str(e)` on a caught exception: its message. -/
def AGError.str : AGError → String
  | .fileNotFound m => m
  | .nodeNotFound m => m
  | .valueError m => m

/-- Whether a result failed specifically with the spec's `NodeNotFoundError`. -/
def resultIsNodeNotFound : Except AGError Range3d → Bool
  | .error (.nodeNotFound _) => true
  | _ => false

/-- The `prim` argument of `_get_extent`/`_get_vertex_bbox`
(`Union[str, Usd.Prim]`). -/
inductive PrimRef where
  | path (p : String)
  | prim (h : Prim)

/-- The `BBoxCache` constructed by `_get_extent` (auto_guide.py lines 30-34):
default time code, `includedPurposes=[UsdGeom.Tokens.default_,
UsdGeom.Tokens.render]`, `useExtentsHint=False`, `ignoreVisibility=False`. -/
def getExtentBBoxCache : BBoxCacheConfig :=
  { time := .default
    includedPurposes := ["default", "render"]
    useExtentsHint := false
    ignoreVisibility := false }

/-- Port of `_get_extent` (auto_guide.py lines 7-41): resolve a path string to
a prim via `GetPrimAtPath` (unchecked), then inside `try:` build the
`BBoxCache`, compute the world bound and its aligned box; any exception is
re-raised as `ValueError("Error in get_extent: " + str(e))`. -/
def _get_extent (stage : SourceStage) (prim : PrimRef) : Except AGError Range3d :=
  let primH : Prim :=
    match prim with
    | .path prim_path => stage.GetPrimAtPath prim_path
    | .prim h => h
  match computeWorldBound getExtentBBoxCache primH with
  | .error e => .error (.valueError ("Error in get_extent: " ++ e))
  | .ok bbox_bounds => .ok (computeAlignedBox bbox_bounds)

/-- Port of `_get_vertex_bbox` (auto_guide.py lines 44-101): compute the
aligned extent, normalize each min/max coordinate with `convert_to_float`,
return `extents = [corrected_min, corrected_max]` together with the 8 corner
points in the fixed source order; errors from the extent step are re-raised as
`ValueError("Error in get_vertex_bbox when extracting extents: " + str(e))`
(the corner-construction step cannot fail). -/
def _get_vertex_bbox (stage : SourceStage) (prim : PrimRef) :
    Except AGError (List (List ℚ) × List Vec3) :=
  match _get_extent stage prim with
  | .error e =>
      .error (.valueError ("Error in get_vertex_bbox when extracting extents: " ++ e.str))
  | .ok bound_align =>
      let bbox_min := bound_align.min
      let bbox_max := bound_align.max
      let corrected_min := [convert_to_float bbox_min.1, convert_to_float bbox_min.2.1,
        convert_to_float bbox_min.2.2]
      let corrected_max := [convert_to_float bbox_max.1, convert_to_float bbox_max.2.1,
        convert_to_float bbox_max.2.2]
      let extents := [corrected_min, corrected_max]
      let vertex_points : List Vec3 := [
        (convert_to_float bbox_max.1, convert_to_float bbox_min.2.1, convert_to_float bbox_max.2.2),
        (convert_to_float bbox_min.1, convert_to_float bbox_min.2.1, convert_to_float bbox_max.2.2),
        (convert_to_float bbox_max.1, convert_to_float bbox_max.2.1, convert_to_float bbox_max.2.2),
        (convert_to_float bbox_min.1, convert_to_float bbox_max.2.1, convert_to_float bbox_max.2.2),
        (convert_to_float bbox_min.1, convert_to_float bbox_min.2.1, convert_to_float bbox_min.2.2),
        (convert_to_float bbox_max.1, convert_to_float bbox_min.2.1, convert_to_float bbox_min.2.2),
        (convert_to_float bbox_min.1, convert_to_float bbox_max.2.1, convert_to_float bbox_min.2.2),
        (convert_to_float bbox_max.1, convert_to_float bbox_max.2.1, convert_to_float bbox_min.2.2)]
      .ok (extents, vertex_points)

/-! ## Target-stage authoring model (`Usd.Stage` being written) -/

/-- The values this module writes into attributes. -/
inductive AttrValue where
  | ints (xs : List ℤ)
  | pts (xs : List Vec3)
  | extent (xs : List (List ℚ))
deriving DecidableEq

/-- An authored prim: its schema type name and its attributes
(name, value type name, value), in authoring order. -/
structure PrimSpec where
  typeName : String
  attrs : List (String × String × AttrValue)
deriving DecidableEq

/-- A stage being authored: association list from prim path to prim spec. -/
def TargetStage : Type := List (String × PrimSpec)

/-- `Usd.Stage.DefinePrim(path, typeName)`: idempotent on path — updates the
type of an existing prim spec (keeping its attributes) or appends a new,
attribute-less one. -/
def definePrim : TargetStage → String → String → TargetStage
  | [], path, ty => [(path, { typeName := ty, attrs := [] })]
  | (q, spec) :: rest, path, ty =>
      if q = path then (q, { typeName := ty, attrs := spec.attrs }) :: rest
      else (q, spec) :: definePrim rest path ty

/-- Upsert of one attribute (keeps position if present, else appends). -/
def setAttrList : List (String × String × AttrValue) → String → String → AttrValue →
    List (String × String × AttrValue)
  | [], name, ty, v => [(name, ty, v)]
  | (m, t0, v0) :: rest, name, ty, v =>
      if m = name then (m, ty, v) :: rest
      else (m, t0, v0) :: setAttrList rest name ty v

/-- `prim.CreateAttribute(name, type)` followed by `.Set(value)`, addressed by
the prim's path; a no-op on a path with no prim (never reached by the code,
which defines the prim first). -/
def createSetAttr : TargetStage → String → String → String → AttrValue → TargetStage
  | [], _, _, _, _ => []
  | (q, spec) :: rest, path, name, ty, v =>
      if q = path then
        (q, { typeName := spec.typeName, attrs := setAttrList spec.attrs name ty v }) :: rest
      else (q, spec) :: createSetAttr rest path name ty v

/-- Lookup of an authored prim spec by path. -/
def getPrim : TargetStage → String → Option PrimSpec
  | [], _ => none
  | (q, spec) :: rest, path => if q = path then some spec else getPrim rest path

/-- The schema type name of the prim at a path, if any. -/
def primTypeAt (st : TargetStage) (path : String) : Option String :=
  (getPrim st path).map (fun s => s.typeName)

/-- Lookup of an attribute value in an attribute list. -/
def attrValue : List (String × String × AttrValue) → String → Option AttrValue
  | [], _ => none
  | (m, _, v) :: rest, name => if m = name then some v else attrValue rest name

/-- Lookup of an attribute's stored (value type name, value) pair. -/
def attrFull : List (String × String × AttrValue) → String → Option (String × AttrValue)
  | [], _ => none
  | (m, t, v) :: rest, name => if m = name then some (t, v) else attrFull rest name

/-- The value of the named attribute of the prim at a path, if any. -/
def getAttr (st : TargetStage) (path name : String) : Option AttrValue :=
  match getPrim st path with
  | none => none
  | some spec => attrValue spec.attrs name

/-- The `faceVertexCounts` list authored by `_create_cube_mesh`
(auto_guide.py line 130): six quads. -/
def cubeFaceVertexCounts : List ℤ := [4, 4, 4, 4, 4, 4]

/-- The `faceVertexIndices` list authored by `_create_cube_mesh`
(auto_guide.py line 142). -/
def cubeFaceVertexIndices : List ℤ :=
  [0, 1, 3, 2, 4, 5, 7, 6, 6, 7, 2, 3, 5, 4, 1, 0, 5, 0, 2, 7, 1, 4, 6, 3]

/-- Port of `_create_cube_mesh` (auto_guide.py lines 104-147): define the
`Xform` prims at the default prim's path, `.../model`, `.../model/guide`, the
`Mesh` at `.../model/guide/box`, author `faceVertexCounts`, `points`,
`extent`, `faceVertexIndices` on the mesh, and return the mesh prim.
`default_prim` is used only through `GetPath()`, modelled by its path string.
(The model's attribute writes cannot fail, so the `ValueError` re-raise branch
is unreachable.) -/
def _create_cube_mesh (stage : TargetStage) (bbox_extent : List (List ℚ))
    (vertex_points : List Vec3) (default_prim : String) : TargetStage × String :=
  let s1 := definePrim stage default_prim "Xform"
  let s2 := definePrim s1 (default_prim ++ "/model") "Xform"
  let s3 := definePrim s2 (default_prim ++ "/model/guide") "Xform"
  let cube_mesh := default_prim ++ "/model/guide/box"
  let s4 := definePrim s3 cube_mesh "Mesh"
  let s5 := createSetAttr s4 cube_mesh "faceVertexCounts" "Int" (.ints cubeFaceVertexCounts)
  let s6 := createSetAttr s5 cube_mesh "points" "Point3f" (.pts vertex_points)
  let s7 := createSetAttr s6 cube_mesh "extent" "Vector3fArray" (.extent bbox_extent)
  let s8 := createSetAttr s7 cube_mesh "faceVertexIndices" "Int" (.ints cubeFaceVertexIndices)
  (s8, cube_mesh)

/-! ## Orchestration model (`create_auto_guide`) -/

/-- A file on disk: a source scene or an authored guide document. -/
inductive FileData where
  | scene (s : SourceStage)
  | guide (s : TargetStage)

/-- The world `create_auto_guide` acts on: the files on disk plus a log of the
scene-store (pxr) calls performed, in order. -/
structure World where
  files : List (String × FileData)
  storeOps : List String

/-- `pathlib.Path(p).exists()`. -/
def pathExists (w : World) (p : String) : Bool :=
  match w.files.find? (fun f => f.1 == p) with
  | none => false
  | some _ => true

/-- Append one scene-store call to the log. -/
def logOp (w : World) (op : String) : World :=
  { files := w.files, storeOps := w.storeOps ++ [op] }

/-- `Usd.Stage.Open(path)` on an existing file: yields the source stage, or
raises if the file is not an openable scene. -/
def stageOpenSrc (w : World) (p : String) : Except String SourceStage :=
  match w.files.find? (fun f => f.1 == p) with
  | some (_, .scene s) => .ok s
  | _ => .error ("Failed to open stage " ++ p)

/-- Write (create or overwrite) a file. -/
def setFile : List (String × FileData) → String → FileData → List (String × FileData)
  | [], p, d => [(p, d)]
  | (q, d0) :: rest, p, d => if q = p then (q, d) :: rest else (q, d0) :: setFile rest p d

/-- Port of `create_auto_guide` (auto_guide.py lines 150-183): raise
`FileNotFoundError` if `geo_path` does not exist, else (inside `try:`) open
the source stage, take its default prim, compute the vertex bbox, create the
guide stage, build the cube mesh, and save; any exception in the `try:` is
re-raised as `ValueError("Error in create_auto_guide: " + str(e))`.  Returns
the outcome together with the world as left behind. -/
def create_auto_guide (w : World) (geo_path guide_path : String) :
    Except AGError Unit × World :=
  if pathExists w geo_path = false then
    (.error (.fileNotFound ("The file: " ++ geo_path ++ " does not exist.")), w)
  else
    let w1 := logOp w ("Usd.Stage.Open " ++ geo_path)
    match stageOpenSrc w1 geo_path with
    | .error msg => (.error (.valueError ("Error in create_auto_guide: " ++ msg)), w1)
    | .ok model_stage =>
      let asset_prim := model_stage.GetDefaultPrim
      match _get_vertex_bbox model_stage (.prim asset_prim) with
      | .error e =>
          (.error (.valueError ("Error in create_auto_guide: " ++ e.str)), w1)
      | .ok (bbox_extent, vertex_points) =>
        let w2 := logOp w1 ("Usd.Stage.CreateNew " ++ guide_path)
        let stage : TargetStage := []
        let built := _create_cube_mesh stage bbox_extent vertex_points asset_prim.GetPath
        let w3 := logOp w2 ("Usd.Stage.Save " ++ guide_path)
        (.ok (), { files := setFile w3.files guide_path (.guide built.1), storeOps := w3.storeOps })

/-! ## Claim-support definitions and concrete demonstration inputs -/

/-- A list of 3d points lies in a common plane: some nonzero linear functional
`(a, b, c)` takes the same value `d` on all of them. -/
def CoplanarList (ps : List Vec3) : Prop :=
  ∃ a b c d : ℚ, ¬(a = 0 ∧ b = 0 ∧ c = 0) ∧
    ∀ p ∈ ps, a * p.1 + b * p.2.1 + c * p.2.2 = d

/-- Split a flat index list into consecutive groups of the given sizes
(the reading of `faceVertexIndices` dictated by `faceVertexCounts`). -/
def splitByCounts : List ℤ → List ℤ → List (List ℤ)
  | [], _ => []
  | c :: cs, xs => xs.take c.toNat :: splitByCounts cs (xs.drop c.toNat)

/-- The points selected from a vertex list by one face's index group. -/
def selectPoints (pts : List Vec3) (face : List ℤ) : List Vec3 :=
  face.map (fun i => pts.getD i.toNat (0, 0, 0))

/-- The scenario geometry of the spec's §8: a single visible default-purpose
geometry prim whose world extent is `[(-1,-2,-3), (4,5,6)]`. -/
def scenarioNode : PrimNode :=
  { subtree := [{ purpose := "default", visible := true
                  extent := { min := (-1, -2, -3), max := (4, 5, 6) } }] }

/-- A source stage holding the scenario geometry at `/asset`, which is also
its default prim. -/
def scenarioStage : SourceStage :=
  { prims := [("/asset", scenarioNode)], defaultPrimPath := some "/asset" }

/-- A prim whose subtree has one visible geometry with extent
`[(0,0,0), (1,1,1)]` and one geometry hidden by a visibility toggle with
extent `[(5,5,5), (6,6,6)]`. -/
def partlyHiddenNode : PrimNode :=
  { subtree := [{ purpose := "default", visible := true
                  extent := { min := (0, 0, 0), max := (1, 1, 1) } },
                { purpose := "default", visible := false
                  extent := { min := (5, 5, 5), max := (6, 6, 6) } }] }

/-- A world with no files at all. -/
def emptyWorld : World := { files := [], storeOps := [] }

/-! ## Properties of the decimal-exponent functions -/

theorem log10fuel_spec : ∀ f n, 1 ≤ n → n ≤ f →
    10 ^ log10fuel f n ≤ n ∧ n < 10 ^ (log10fuel f n + 1) := by
  intro f
  induction f with
  | zero => intro n h1 h2; exact absurd (le_trans h1 h2) (by norm_num)
  | succ f ih =>
    intro n h1 h2
    by_cases hn : n < 10
    · simp only [log10fuel, if_pos hn]
      exact ⟨by simpa using h1, by simpa using hn⟩
    · simp only [log10fuel, if_neg hn]
      push_neg at hn
      have hdiv1 : 1 ≤ n / 10 := (Nat.one_le_div_iff (by norm_num)).mpr hn
      have hdivlt : n / 10 < n := Nat.div_lt_self (by omega) (by norm_num)
      have ⟨ha, hb⟩ := ih (n / 10) hdiv1 (by omega)
      constructor
      · calc 10 ^ (log10fuel f (n / 10) + 1) = 10 ^ log10fuel f (n / 10) * 10 := by
              rw [pow_succ]
          _ ≤ n / 10 * 10 := Nat.mul_le_mul_right 10 ha
          _ ≤ n := Nat.div_mul_le_self n 10
      · have hsucc : n / 10 + 1 ≤ 10 ^ (log10fuel f (n / 10) + 1) := hb
        have hmod : n < (n / 10 + 1) * 10 := by
          have := Nat.div_add_mod n 10
          have : n % 10 < 10 := Nat.mod_lt n (by norm_num)
          omega
        calc n < (n / 10 + 1) * 10 := hmod
          _ ≤ 10 ^ (log10fuel f (n / 10) + 1) * 10 := Nat.mul_le_mul_right 10 hsucc
          _ = 10 ^ (log10fuel f (n / 10) + 1 + 1) := (pow_succ 10 _).symm

theorem natLog10_spec (n : Nat) (h : 1 ≤ n) :
    10 ^ natLog10 n ≤ n ∧ n < 10 ^ (natLog10 n + 1) :=
  log10fuel_spec n n h le_rfl

theorem natLog10_eq_zero {n : Nat} (h : n < 10) : natLog10 n = 0 := by
  cases n with
  | zero => rfl
  | succ m => simp [natLog10, log10fuel, h]

theorem clog10fuel_eq_zero (f n d : Nat) (h : d ≤ n) : clog10fuel f n d = 0 := by
  cases f <;> simp [clog10fuel, h]

theorem clog10fuel_spec : ∀ f n d, 1 ≤ n → d ≤ 10 ^ f * n →
    d ≤ n * 10 ^ clog10fuel f n d ∧ (n < d → n * 10 ^ clog10fuel f n d < 10 * d) := by
  intro f
  induction f with
  | zero =>
    intro n d h1 h2
    rw [pow_zero, one_mul] at h2
    refine ⟨by simpa [clog10fuel] using h2, fun hlt => absurd h2 (by omega)⟩
  | succ f ih =>
    intro n d h1 h2
    by_cases hd : d ≤ n
    · rw [clog10fuel_eq_zero _ _ _ hd]
      exact ⟨by simpa using hd, fun hlt => absurd hd (by omega)⟩
    · simp only [clog10fuel, if_neg hd]
      push_neg at hd
      by_cases hd10 : d ≤ n * 10
      · rw [clog10fuel_eq_zero f (n * 10) d hd10]
        constructor
        · simpa using hd10
        · intro _; rw [pow_one]; omega
      · have h2' : d ≤ 10 ^ f * (n * 10) := by
          rw [pow_succ] at h2; calc d ≤ 10 ^ f * 10 * n := h2
            _ = 10 ^ f * (n * 10) := by ring
        have ⟨ha, hb⟩ := ih (n * 10) d (by omega) h2'
        push_neg at hd10
        constructor
        · calc d ≤ n * 10 * 10 ^ clog10fuel f (n * 10) d := ha
            _ = n * 10 ^ (clog10fuel f (n * 10) d + 1) := by ring
        · intro _
          calc n * 10 ^ (clog10fuel f (n * 10) d + 1)
              = n * 10 * 10 ^ clog10fuel f (n * 10) d := by ring
            _ < 10 * d := hb hd10

theorem fracLog10_spec (n d : Nat) (h1 : 1 ≤ n) (hlt : n < d) :
    d ≤ n * 10 ^ fracLog10 n d ∧ n * 10 ^ fracLog10 n d < 10 * d := by
  have hfuel : d ≤ 10 ^ d * n := by
    have h1' : d < 10 ^ d := Nat.lt_pow_self (by norm_num) d
    calc d ≤ 10 ^ d := le_of_lt h1'
      _ ≤ 10 ^ d * n := Nat.le_mul_of_pos_right _ (by omega)
  have ⟨ha, hb⟩ := clog10fuel_spec d n d h1 hfuel
  exact ⟨ha, hb hlt⟩

theorem floorLog10_bounds (r : ℚ) (hr : 0 < r) :
    (10 : ℚ) ^ floorLog10 r ≤ r ∧ r < (10 : ℚ) ^ (floorLog10 r + 1) := by
  unfold floorLog10
  by_cases h1 : 1 ≤ r
  · rw [if_pos h1]
    have hfl1 : (1 : ℤ) ≤ ⌊r⌋ := Int.le_floor.mpr (by exact_mod_cast h1)
    set n := ⌊r⌋.toNat with hn
    have hcast : (n : ℤ) = ⌊r⌋ := Int.toNat_of_nonneg (by omega)
    have hn1 : 1 ≤ n := by omega
    have ⟨ha, hb⟩ := natLog10_spec n hn1
    constructor
    · rw [zpow_natCast]
      calc ((10 : ℚ) ^ natLog10 n) = ((10 ^ natLog10 n : ℕ) : ℚ) := by push_cast; ring
        _ ≤ (n : ℚ) := by exact_mod_cast ha
        _ = ((⌊r⌋ : ℤ) : ℚ) := by exact_mod_cast congrArg (fun z => ((z : ℤ) : ℚ)) hcast
        _ ≤ r := Int.floor_le r
    · have hsucc : ((n : ℚ) + 1) ≤ ((10 ^ (natLog10 n + 1) : ℕ) : ℚ) := by exact_mod_cast hb
      calc r < ⌊r⌋ + 1 := Int.lt_floor_add_one r
        _ = (n : ℚ) + 1 := by rw [← hcast]; push_cast; ring
        _ ≤ ((10 ^ (natLog10 n + 1) : ℕ) : ℚ) := hsucc
        _ = (10 : ℚ) ^ ((natLog10 n : ℤ) + 1) := by
              have hz : ((natLog10 n : ℤ) + 1) = ((natLog10 n + 1 : ℕ) : ℤ) := by push_cast; ring
              rw [hz, zpow_natCast]; push_cast; ring
  · rw [if_neg h1]
    push_neg at h1
    have hnum : 0 < r.num := Rat.num_pos.mpr hr
    set n := r.num.toNat with hndef
    set d := r.den with hddef
    have hncast : ((n : ℤ) : ℚ) = (r.num : ℚ) := by
      rw [Int.toNat_of_nonneg (by omega)]
    have hd0 : 0 < d := r.pos
    have hlt : n < d := by
      have := Rat.lt_one_iff_num_lt_denom.mp h1
      omega
    have hn1 : 1 ≤ n := by omega
    have ⟨ha, hb⟩ := fracLog10_spec n d hn1 hlt
    set k := fracLog10 n d with hkdef
    have hrnd : r = (n : ℚ) / (d : ℚ) := by
      rw [show ((n : ℚ)) = ((n : ℤ) : ℚ) by push_cast; ring, hncast]
      exact (Rat.num_div_den r).symm
    have hpow : (0 : ℚ) < 10 ^ k := by positivity
    constructor
    · rw [zpow_neg, zpow_natCast, hrnd]
      rw [inv_eq_one_div, div_le_div_iff₀ hpow (by exact_mod_cast hd0)]
      calc (1 : ℚ) * d = (d : ℚ) := by ring
        _ ≤ ((n * 10 ^ k : ℕ) : ℚ) := by exact_mod_cast ha
        _ = (n : ℚ) * 10 ^ k := by push_cast; ring
    · have hexp : (10 : ℚ) ^ (-(k : ℤ) + 1) = 10 / 10 ^ k := by
        rw [zpow_add₀ (by norm_num : (10 : ℚ) ≠ 0), zpow_neg, zpow_natCast, zpow_one]
        ring
      rw [hrnd, hexp, div_lt_div_iff₀ (by exact_mod_cast hd0) hpow]
      calc (n : ℚ) * 10 ^ k = ((n * 10 ^ k : ℕ) : ℚ) := by push_cast; ring
        _ < ((10 * d : ℕ) : ℚ) := by exact_mod_cast hb
        _ = 10 * (d : ℚ) := by push_cast; ring

theorem floorLog10_eq_zero {r : ℚ} (h1 : 1 ≤ r) (h10 : r < 10) : floorLog10 r = 0 := by
  unfold floorLog10
  rw [if_pos h1]
  have hfl : (0 : ℤ) ≤ ⌊r⌋ := by positivity
  have hlt : ⌊r⌋ < 10 := by
    have := Int.floor_lt.mpr (show r < ((10 : ℤ) : ℚ) by exact_mod_cast h10)
    exact this
  have : ⌊r⌋.toNat < 10 := by omega
  simp [natLog10_eq_zero this]

theorem mantissa_bounds (q : ℚ) (hq : q ≠ 0) :
    1 ≤ abs (q / 10 ^ floorLog10 (abs q)) ∧ abs (q / 10 ^ floorLog10 (abs q)) < 10 := by
  have habs : 0 < abs q := abs_pos.mpr hq
  have hab := floorLog10_bounds (abs q) habs
  have hpow : (0 : ℚ) < 10 ^ floorLog10 (abs q) := by positivity
  rw [abs_div, abs_of_pos hpow]
  constructor
  · rw [le_div_iff₀ hpow, one_mul]
    exact hab.1
  · rw [div_lt_iff₀ hpow]
    calc abs q < 10 ^ (floorLog10 (abs q) + 1) := hab.2
      _ = 10 * 10 ^ floorLog10 (abs q) := by
          rw [zpow_add₀ (by norm_num : (10 : ℚ) ≠ 0), zpow_one]; ring

theorem pyRender_plain_parts {q v : ℚ} (h : pyRender q = .plain v) :
    convert_to_float q = q := by
  unfold convert_to_float
  rw [h]

theorem pyRender_sci_parts {q m : ℚ} {e : ℤ} (h : pyRender q = .sci m e) :
    convert_to_float q = m ∧ m = q / 10 ^ e ∧ e = floorLog10 (abs q) ∧ q ≠ 0 ∧
      (e < -4 ∨ 16 ≤ e) := by
  have h' := h
  unfold pyRender at h'
  by_cases h0 : q = 0
  · rw [if_pos h0] at h'
    exact absurd h' (by simp)
  · rw [if_neg h0] at h'
    by_cases hrange : floorLog10 |q| < -4 ∨ 16 ≤ floorLog10 |q|
    · rw [if_pos hrange] at h'
      injection h' with hm he
      refine ⟨?_, by rw [← hm, he], by rw [← he], h0, by rw [he] at hrange; exact hrange⟩
      unfold convert_to_float
      rw [h]
    · rw [if_neg hrange] at h'
      exact absurd h' (by simp)

theorem pyRender_plain_of_unit {m : ℚ} (h1 : 1 ≤ abs m) (h10 : abs m < 10) :
    pyRender m = .plain m := by
  have hm0 : m ≠ 0 := by
    intro h
    rw [h] at h1
    norm_num at h1
  unfold pyRender
  rw [if_neg hm0]
  have he0 : floorLog10 |m| = 0 := floorLog10_eq_zero h1 h10
  rw [he0]
  norm_num

theorem ten_zpow_ne_one {e : ℤ} (h : e < -4 ∨ 16 ≤ e) : (10 : ℚ) ^ e ≠ 1 := by
  rcases h with h | h
  · have hle : (10 : ℚ) ^ e ≤ 10 ^ (-5 : ℤ) :=
      zpow_le_zpow_right₀ (by norm_num) (by omega)
    intro hc
    rw [hc] at hle
    norm_num at hle
  · have hle : (10 : ℚ) ^ (16 : ℤ) ≤ 10 ^ e :=
      zpow_le_zpow_right₀ (by norm_num) h
    intro hc
    rw [hc] at hle
    norm_num at hle

theorem convert_changes_sci {q m : ℚ} {e : ℤ} (h : pyRender q = .sci m e) :
    convert_to_float q ≠ q := by
  obtain ⟨hc, hm, _, hq0, hrange⟩ := pyRender_sci_parts h
  rw [hc, hm]
  have hpow : (10 : ℚ) ^ e ≠ 0 := by positivity
  intro heq
  rw [div_eq_iff hpow] at heq
  have h1 : (10 : ℚ) ^ e = 1 := by
    have hq : q * 1 = q * 10 ^ e := by rw [mul_one]; exact heq
    exact (mul_left_cancel₀ hq0 hq).symm
  exact ten_zpow_ne_one hrange h1

theorem convert_sci_renders_plain {q m : ℚ} {e : ℤ} (h : pyRender q = .sci m e) :
    pyRender (convert_to_float q) = .plain (convert_to_float q) := by
  obtain ⟨hc, hm, he, hq0, _⟩ := pyRender_sci_parts h
  have hb := mantissa_bounds q hq0
  rw [← he, ← hm] at hb
  rw [hc]
  exact pyRender_plain_of_unit hb.1 hb.2

theorem convert_to_float_idem (q : ℚ) :
    convert_to_float (convert_to_float q) = convert_to_float q := by
  cases hre : pyRender q with
  | plain v =>
    rw [pyRender_plain_parts hre]
    exact pyRender_plain_parts hre
  | sci m e =>
    exact pyRender_plain_parts (convert_sci_renders_plain hre)

/-! ## Shape of `_get_vertex_bbox` results -/

theorem get_vertex_bbox_ok (stage : SourceStage) (pr : PrimRef) (r : Range3d)
    (h : _get_extent stage pr = .ok r) :
    _get_vertex_bbox stage pr = .ok
      ([[convert_to_float r.min.1, convert_to_float r.min.2.1, convert_to_float r.min.2.2],
        [convert_to_float r.max.1, convert_to_float r.max.2.1, convert_to_float r.max.2.2]],
       [(convert_to_float r.max.1, convert_to_float r.min.2.1, convert_to_float r.max.2.2),
        (convert_to_float r.min.1, convert_to_float r.min.2.1, convert_to_float r.max.2.2),
        (convert_to_float r.max.1, convert_to_float r.max.2.1, convert_to_float r.max.2.2),
        (convert_to_float r.min.1, convert_to_float r.max.2.1, convert_to_float r.max.2.2),
        (convert_to_float r.min.1, convert_to_float r.min.2.1, convert_to_float r.min.2.2),
        (convert_to_float r.max.1, convert_to_float r.min.2.1, convert_to_float r.min.2.2),
        (convert_to_float r.min.1, convert_to_float r.max.2.1, convert_to_float r.min.2.2),
        (convert_to_float r.max.1, convert_to_float r.max.2.1, convert_to_float r.min.2.2)]) := by
  unfold _get_vertex_bbox
  rw [h]

/-- The corner table of §4.1, with `min = (x0,y0,z0)` and `max = (x1,y1,z1)`:
the 8 corner points in the fixed source order. -/
theorem get_vertex_bbox_corners (stage : SourceStage) (pr : PrimRef)
    {x0 y0 z0 x1 y1 z1 : ℚ} {pts : List Vec3}
    (h : _get_vertex_bbox stage pr = .ok ([[x0, y0, z0], [x1, y1, z1]], pts)) :
    pts = [(x1, y0, z1), (x0, y0, z1), (x1, y1, z1), (x0, y1, z1),
           (x0, y0, z0), (x1, y0, z0), (x0, y1, z0), (x1, y1, z0)] := by
  unfold _get_vertex_bbox at h
  cases hres : _get_extent stage pr with
  | error e => rw [hres] at h; exact absurd h (by simp)
  | ok r =>
    rw [hres] at h
    simp only [Except.ok.injEq, Prod.mk.injEq, List.cons.injEq, List.nil_eq] at h
    obtain ⟨⟨⟨hx0, hy0, hz0, _⟩, ⟨hx1, hy1, hz1, _⟩, _⟩, hpts⟩ := h
    rw [← hpts, hx0, hy0, hz0, hx1, hy1, hz1]

/-! ## Properties of the authoring operations -/

theorem ne_of_length_ne {s t : String} (h : s.length ≠ t.length) : s ≠ t := by
  intro he
  exact h (by rw [he])

theorem getPrim_definePrim_self (st : TargetStage) (p ty : String) :
    getPrim (definePrim st p ty) p =
      some { typeName := ty, attrs := ((getPrim st p).map PrimSpec.attrs).getD [] } := by
  induction st with
  | nil => simp [definePrim, getPrim]
  | cons hd tl ih =>
    obtain ⟨q, spec⟩ := hd
    by_cases hq : q = p
    · simp [definePrim, getPrim, hq]
    · simp [definePrim, getPrim, hq, ih]

theorem getPrim_definePrim_other (st : TargetStage) (p ty q : String) (h : q ≠ p) :
    getPrim (definePrim st p ty) q = getPrim st q := by
  induction st with
  | nil =>
    simp only [definePrim, getPrim, if_neg (fun c : p = q => h c.symm)]
  | cons hd tl ih =>
    obtain ⟨k, spec⟩ := hd
    by_cases hk : k = p
    · have hkq : ¬ k = q := fun c => h (c.symm.trans hk)
      simp only [definePrim, getPrim, if_pos hk, if_neg hkq]
    · by_cases hkq : k = q
      · simp only [definePrim, getPrim, if_neg hk, if_pos hkq]
      · simp only [definePrim, getPrim, if_neg hk, if_neg hkq]
        exact ih

theorem getPrim_createSetAttr_self (st : TargetStage) (p n ty : String) (v : AttrValue)
    (spec : PrimSpec) (h : getPrim st p = some spec) :
    getPrim (createSetAttr st p n ty v) p =
      some { typeName := spec.typeName, attrs := setAttrList spec.attrs n ty v } := by
  induction st with
  | nil => simp [getPrim] at h
  | cons hd tl ih =>
    obtain ⟨k, s0⟩ := hd
    by_cases hk : k = p
    · rw [getPrim, if_pos hk] at h
      injection h with h
      subst h
      simp only [createSetAttr, getPrim, if_pos hk]
    · rw [getPrim, if_neg hk] at h
      simp only [createSetAttr, getPrim, if_neg hk]
      exact ih h

theorem getPrim_createSetAttr_other (st : TargetStage) (p n ty : String) (v : AttrValue)
    (q : String) (h : q ≠ p) :
    getPrim (createSetAttr st p n ty v) q = getPrim st q := by
  induction st with
  | nil => simp only [createSetAttr, getPrim]
  | cons hd tl ih =>
    obtain ⟨k, s0⟩ := hd
    by_cases hk : k = p
    · have hkq : ¬ k = q := fun c => h (c.symm.trans hk)
      simp only [createSetAttr, getPrim, if_pos hk, if_neg hkq]
    · by_cases hkq : k = q
      · simp only [createSetAttr, getPrim, if_neg hk, if_pos hkq]
      · simp only [createSetAttr, getPrim, if_neg hk, if_neg hkq]
        exact ih

theorem attrValue_setAttrList_self (ats : List (String × String × AttrValue))
    (n ty : String) (v : AttrValue) :
    attrValue (setAttrList ats n ty v) n = some v := by
  induction ats with
  | nil => simp [setAttrList, attrValue]
  | cons hd tl ih =>
    obtain ⟨m, t0, v0⟩ := hd
    by_cases hm : m = n
    · simp only [setAttrList, attrValue, if_pos hm]
    · simp only [setAttrList, attrValue, if_neg hm]
      exact ih

theorem attrValue_setAttrList_other (ats : List (String × String × AttrValue))
    (n ty m : String) (v : AttrValue) (h : m ≠ n) :
    attrValue (setAttrList ats n ty v) m = attrValue ats m := by
  induction ats with
  | nil =>
    simp only [setAttrList, attrValue, if_neg (fun c : n = m => h c.symm)]
  | cons hd tl ih =>
    obtain ⟨k, t0, v0⟩ := hd
    by_cases hk : k = n
    · have hkm : ¬ k = m := fun c => h (c.symm.trans hk)
      simp only [setAttrList, attrValue, if_pos hk, if_neg hkm]
    · by_cases hkm : k = m
      · simp only [setAttrList, attrValue, if_neg hk, if_pos hkm]
      · simp only [setAttrList, attrValue, if_neg hk, if_neg hkm]
        exact ih

theorem attrFull_setAttrList_self (ats : List (String × String × AttrValue))
    (n ty : String) (v : AttrValue) :
    attrFull (setAttrList ats n ty v) n = some (ty, v) := by
  induction ats with
  | nil => simp [setAttrList, attrFull]
  | cons hd tl ih =>
    obtain ⟨m, t0, v0⟩ := hd
    by_cases hm : m = n
    · simp only [setAttrList, attrFull, if_pos hm]
    · simp only [setAttrList, attrFull, if_neg hm]
      exact ih

theorem attrFull_setAttrList_other (ats : List (String × String × AttrValue))
    (n ty m : String) (v : AttrValue) (h : m ≠ n) :
    attrFull (setAttrList ats n ty v) m = attrFull ats m := by
  induction ats with
  | nil =>
    simp only [setAttrList, attrFull, if_neg (fun c : n = m => h c.symm)]
  | cons hd tl ih =>
    obtain ⟨k, t0, v0⟩ := hd
    by_cases hk : k = n
    · have hkm : ¬ k = m := fun c => h (c.symm.trans hk)
      simp only [setAttrList, attrFull, if_pos hk, if_neg hkm]
    · by_cases hkm : k = m
      · simp only [setAttrList, attrFull, if_neg hk, if_pos hkm]
      · simp only [setAttrList, attrFull, if_neg hk, if_neg hkm]
        exact ih

theorem setAttrList_noop (ats : List (String × String × AttrValue))
    (n ty : String) (v : AttrValue) (h : attrFull ats n = some (ty, v)) :
    setAttrList ats n ty v = ats := by
  induction ats with
  | nil => simp [attrFull] at h
  | cons hd tl ih =>
    obtain ⟨m, t0, v0⟩ := hd
    by_cases hm : m = n
    · rw [attrFull, if_pos hm] at h
      injection h with h
      rw [setAttrList, if_pos hm]
      have ht : t0 = ty := congrArg Prod.fst h
      have hv : v0 = v := congrArg Prod.snd h
      rw [← ht, ← hv]
    · rw [attrFull, if_neg hm] at h
      rw [setAttrList, if_neg hm, ih h]

theorem definePrim_noop (st : TargetStage) (p ty : String) (spec : PrimSpec)
    (h : getPrim st p = some spec) (hty : spec.typeName = ty) :
    definePrim st p ty = st := by
  induction st with
  | nil => simp [getPrim] at h
  | cons hd tl ih =>
    obtain ⟨k, s0⟩ := hd
    by_cases hk : k = p
    · rw [getPrim, if_pos hk] at h
      injection h with h
      have h1 : s0.typeName = ty := by rw [h, hty]
      obtain ⟨t0, a0⟩ := s0
      simp only [definePrim, if_pos hk]
      simp only at h1
      rw [h1]
    · rw [getPrim, if_neg hk] at h
      rw [definePrim, if_neg hk, ih h]

theorem createSetAttr_noop (st : TargetStage) (p n ty : String) (v : AttrValue)
    (spec : PrimSpec) (h : getPrim st p = some spec)
    (ha : attrFull spec.attrs n = some (ty, v)) :
    createSetAttr st p n ty v = st := by
  induction st with
  | nil => simp [getPrim] at h
  | cons hd tl ih =>
    obtain ⟨k, s0⟩ := hd
    by_cases hk : k = p
    · rw [getPrim, if_pos hk] at h
      injection h with h
      subst h
      rw [createSetAttr, if_pos hk, setAttrList_noop _ _ _ _ ha]
    · rw [getPrim, if_neg hk] at h
      rw [createSetAttr, if_neg hk, ih h]

theorem create_cube_mesh_spec (stage : TargetStage) (ext : List (List ℚ))
    (pts : List Vec3) (dp : String) :
    (_create_cube_mesh stage ext pts dp).2 = dp ++ "/model/guide/box" ∧
    primTypeAt (_create_cube_mesh stage ext pts dp).1 dp = some "Xform" ∧
    primTypeAt (_create_cube_mesh stage ext pts dp).1 (dp ++ "/model") = some "Xform" ∧
    primTypeAt (_create_cube_mesh stage ext pts dp).1 (dp ++ "/model/guide") = some "Xform" ∧
    primTypeAt (_create_cube_mesh stage ext pts dp).1 (dp ++ "/model/guide/box") = some "Mesh" ∧
    getAttr (_create_cube_mesh stage ext pts dp).1 (dp ++ "/model/guide/box")
      "faceVertexCounts" = some (.ints cubeFaceVertexCounts) ∧
    getAttr (_create_cube_mesh stage ext pts dp).1 (dp ++ "/model/guide/box")
      "points" = some (.pts pts) ∧
    getAttr (_create_cube_mesh stage ext pts dp).1 (dp ++ "/model/guide/box")
      "extent" = some (.extent ext) ∧
    getAttr (_create_cube_mesh stage ext pts dp).1 (dp ++ "/model/guide/box")
      "faceVertexIndices" = some (.ints cubeFaceVertexIndices) ∧
    _create_cube_mesh (_create_cube_mesh stage ext pts dp).1 ext pts dp =
      _create_cube_mesh stage ext pts dp := by
  have l6 : ("/model" : String).length = 6 := rfl
  have l12 : ("/model/guide" : String).length = 12 := rfl
  have l16 : ("/model/guide/box" : String).length = 16 := rfl
  have ne01 : dp ≠ dp ++ "/model" :=
    ne_of_length_ne (by rw [String.length_append]; omega)
  have ne02 : dp ≠ dp ++ "/model/guide" :=
    ne_of_length_ne (by rw [String.length_append]; omega)
  have ne03 : dp ≠ dp ++ "/model/guide/box" :=
    ne_of_length_ne (by rw [String.length_append]; omega)
  have ne12 : dp ++ "/model" ≠ dp ++ "/model/guide" :=
    ne_of_length_ne (by rw [String.length_append, String.length_append]; omega)
  have ne13 : dp ++ "/model" ≠ dp ++ "/model/guide/box" :=
    ne_of_length_ne (by rw [String.length_append, String.length_append]; omega)
  have ne23 : dp ++ "/model/guide" ≠ dp ++ "/model/guide/box" :=
    ne_of_length_ne (by rw [String.length_append, String.length_append]; omega)
  set P1 := dp ++ "/model" with hP1
  set P2 := dp ++ "/model/guide" with hP2
  set P3 := dp ++ "/model/guide/box" with hP3
  set s1 := definePrim stage dp "Xform" with hs1
  set s2 := definePrim s1 P1 "Xform" with hs2
  set s3 := definePrim s2 P2 "Xform" with hs3
  set s4 := definePrim s3 P3 "Mesh" with hs4
  set s5 := createSetAttr s4 P3 "faceVertexCounts" "Int"
    (AttrValue.ints cubeFaceVertexCounts) with hs5
  set s6 := createSetAttr s5 P3 "points" "Point3f" (AttrValue.pts pts) with hs6
  set s7 := createSetAttr s6 P3 "extent" "Vector3fArray" (AttrValue.extent ext) with hs7
  set s8 := createSetAttr s7 P3 "faceVertexIndices" "Int"
    (AttrValue.ints cubeFaceVertexIndices) with hs8
  have hpair : _create_cube_mesh stage ext pts dp = (s8, P3) := rfl
  -- the mesh prim through the attribute writes
  set a3 := ((getPrim s3 P3).map PrimSpec.attrs).getD [] with ha3
  have g4 : getPrim s4 P3 = some { typeName := "Mesh", attrs := a3 } :=
    getPrim_definePrim_self s3 P3 "Mesh"
  set A5 := setAttrList a3 "faceVertexCounts" "Int" (AttrValue.ints cubeFaceVertexCounts)
    with hA5
  set A6 := setAttrList A5 "points" "Point3f" (AttrValue.pts pts) with hA6
  set A7 := setAttrList A6 "extent" "Vector3fArray" (AttrValue.extent ext) with hA7
  set A8 := setAttrList A7 "faceVertexIndices" "Int"
    (AttrValue.ints cubeFaceVertexIndices) with hA8
  have g5 : getPrim s5 P3 = some { typeName := "Mesh", attrs := A5 } :=
    getPrim_createSetAttr_self s4 P3 _ _ _ _ g4
  have g6 : getPrim s6 P3 = some { typeName := "Mesh", attrs := A6 } :=
    getPrim_createSetAttr_self s5 P3 _ _ _ _ g5
  have g7 : getPrim s7 P3 = some { typeName := "Mesh", attrs := A7 } :=
    getPrim_createSetAttr_self s6 P3 _ _ _ _ g6
  have g8 : getPrim s8 P3 = some { typeName := "Mesh", attrs := A8 } :=
    getPrim_createSetAttr_self s7 P3 _ _ _ _ g7
  -- the three transform prims are untouched by the attribute writes
  have q0 : getPrim s8 dp =
      some { typeName := "Xform", attrs := ((getPrim stage dp).map PrimSpec.attrs).getD [] } := by
    rw [hs8, getPrim_createSetAttr_other s7 P3 _ _ _ dp ne03,
        hs7, getPrim_createSetAttr_other s6 P3 _ _ _ dp ne03,
        hs6, getPrim_createSetAttr_other s5 P3 _ _ _ dp ne03,
        hs5, getPrim_createSetAttr_other s4 P3 _ _ _ dp ne03,
        hs4, getPrim_definePrim_other s3 P3 "Mesh" dp ne03,
        hs3, getPrim_definePrim_other s2 P2 "Xform" dp ne02,
        hs2, getPrim_definePrim_other s1 P1 "Xform" dp ne01,
        hs1]
    exact getPrim_definePrim_self stage dp "Xform"
  have q1 : getPrim s8 P1 =
      some { typeName := "Xform", attrs := ((getPrim s1 P1).map PrimSpec.attrs).getD [] } := by
    rw [hs8, getPrim_createSetAttr_other s7 P3 _ _ _ P1 ne13,
        hs7, getPrim_createSetAttr_other s6 P3 _ _ _ P1 ne13,
        hs6, getPrim_createSetAttr_other s5 P3 _ _ _ P1 ne13,
        hs5, getPrim_createSetAttr_other s4 P3 _ _ _ P1 ne13,
        hs4, getPrim_definePrim_other s3 P3 "Mesh" P1 ne13,
        hs3, getPrim_definePrim_other s2 P2 "Xform" P1 ne12,
        hs2]
    exact getPrim_definePrim_self s1 P1 "Xform"
  have q2 : getPrim s8 P2 =
      some { typeName := "Xform", attrs := ((getPrim s2 P2).map PrimSpec.attrs).getD [] } := by
    rw [hs8, getPrim_createSetAttr_other s7 P3 _ _ _ P2 ne23,
        hs7, getPrim_createSetAttr_other s6 P3 _ _ _ P2 ne23,
        hs6, getPrim_createSetAttr_other s5 P3 _ _ _ P2 ne23,
        hs5, getPrim_createSetAttr_other s4 P3 _ _ _ P2 ne23,
        hs4, getPrim_definePrim_other s3 P3 "Mesh" P2 ne23,
        hs3]
    exact getPrim_definePrim_self s2 P2 "Xform"
  -- attribute values on the mesh prim
  have nfc_fvi : ("faceVertexCounts" : String) ≠ "faceVertexIndices" := by decide
  have nfc_ext : ("faceVertexCounts" : String) ≠ "extent" := by decide
  have nfc_pts : ("faceVertexCounts" : String) ≠ "points" := by decide
  have npts_fvi : ("points" : String) ≠ "faceVertexIndices" := by decide
  have npts_ext : ("points" : String) ≠ "extent" := by decide
  have next_fvi : ("extent" : String) ≠ "faceVertexIndices" := by decide
  have vfc : attrValue A8 "faceVertexCounts" = some (.ints cubeFaceVertexCounts) := by
    rw [hA8, attrValue_setAttrList_other A7 _ _ _ _ nfc_fvi,
        hA7, attrValue_setAttrList_other A6 _ _ _ _ nfc_ext,
        hA6, attrValue_setAttrList_other A5 _ _ _ _ nfc_pts,
        hA5]
    exact attrValue_setAttrList_self a3 _ _ _
  have vpts : attrValue A8 "points" = some (.pts pts) := by
    rw [hA8, attrValue_setAttrList_other A7 _ _ _ _ npts_fvi,
        hA7, attrValue_setAttrList_other A6 _ _ _ _ npts_ext,
        hA6]
    exact attrValue_setAttrList_self A5 _ _ _
  have vext : attrValue A8 "extent" = some (.extent ext) := by
    rw [hA8, attrValue_setAttrList_other A7 _ _ _ _ next_fvi,
        hA7]
    exact attrValue_setAttrList_self A6 _ _ _
  have vfvi : attrValue A8 "faceVertexIndices" = some (.ints cubeFaceVertexIndices) := by
    rw [hA8]
    exact attrValue_setAttrList_self A7 _ _ _
  -- stored (type, value) pairs, for idempotence of the second run
  have ffc : attrFull A8 "faceVertexCounts" =
      some ("Int", AttrValue.ints cubeFaceVertexCounts) := by
    rw [hA8, attrFull_setAttrList_other A7 _ _ _ _ nfc_fvi,
        hA7, attrFull_setAttrList_other A6 _ _ _ _ nfc_ext,
        hA6, attrFull_setAttrList_other A5 _ _ _ _ nfc_pts,
        hA5]
    exact attrFull_setAttrList_self a3 _ _ _
  have fpts : attrFull A8 "points" = some ("Point3f", AttrValue.pts pts) := by
    rw [hA8, attrFull_setAttrList_other A7 _ _ _ _ npts_fvi,
        hA7, attrFull_setAttrList_other A6 _ _ _ _ npts_ext,
        hA6]
    exact attrFull_setAttrList_self A5 _ _ _
  have fext : attrFull A8 "extent" = some ("Vector3fArray", AttrValue.extent ext) := by
    rw [hA8, attrFull_setAttrList_other A7 _ _ _ _ next_fvi,
        hA7]
    exact attrFull_setAttrList_self A6 _ _ _
  have ffvi : attrFull A8 "faceVertexIndices" =
      some ("Int", AttrValue.ints cubeFaceVertexIndices) := by
    rw [hA8]
    exact attrFull_setAttrList_self A7 _ _ _
  -- the second run is a no-op
  have run2 : _create_cube_mesh s8 ext pts dp = (s8, P3) := by
    have d1 : definePrim s8 dp "Xform" = s8 := definePrim_noop s8 dp "Xform" _ q0 rfl
    have d2 : definePrim s8 P1 "Xform" = s8 := definePrim_noop s8 P1 "Xform" _ q1 rfl
    have d3 : definePrim s8 P2 "Xform" = s8 := definePrim_noop s8 P2 "Xform" _ q2 rfl
    have d4 : definePrim s8 P3 "Mesh" = s8 := definePrim_noop s8 P3 "Mesh" _ g8 rfl
    have c5 : createSetAttr s8 P3 "faceVertexCounts" "Int"
        (AttrValue.ints cubeFaceVertexCounts) = s8 :=
      createSetAttr_noop s8 P3 _ _ _ _ g8 ffc
    have c6 : createSetAttr s8 P3 "points" "Point3f" (AttrValue.pts pts) = s8 :=
      createSetAttr_noop s8 P3 _ _ _ _ g8 fpts
    have c7 : createSetAttr s8 P3 "extent" "Vector3fArray" (AttrValue.extent ext) = s8 :=
      createSetAttr_noop s8 P3 _ _ _ _ g8 fext
    have c8 : createSetAttr s8 P3 "faceVertexIndices" "Int"
        (AttrValue.ints cubeFaceVertexIndices) = s8 :=
      createSetAttr_noop s8 P3 _ _ _ _ g8 ffvi
    show (createSetAttr (createSetAttr (createSetAttr (createSetAttr
      (definePrim (definePrim (definePrim (definePrim s8 dp "Xform") P1 "Xform") P2 "Xform")
        P3 "Mesh") P3 "faceVertexCounts" "Int" (AttrValue.ints cubeFaceVertexCounts))
      P3 "points" "Point3f" (AttrValue.pts pts))
      P3 "extent" "Vector3fArray" (AttrValue.extent ext))
      P3 "faceVertexIndices" "Int" (AttrValue.ints cubeFaceVertexIndices), P3) = (s8, P3)
    rw [d1, d2, d3, d4, c5, c6, c7, c8]
  refine ⟨rfl, ?_, ?_, ?_, ?_, ?_, ?_, ?_, ?_, ?_⟩
  · show primTypeAt s8 dp = some "Xform"
    rw [primTypeAt, q0]
    rfl
  · show primTypeAt s8 P1 = some "Xform"
    rw [primTypeAt, q1]
    rfl
  · show primTypeAt s8 P2 = some "Xform"
    rw [primTypeAt, q2]
    rfl
  · show primTypeAt s8 P3 = some "Mesh"
    rw [primTypeAt, g8]
    rfl
  · show getAttr s8 P3 "faceVertexCounts" = some (.ints cubeFaceVertexCounts)
    rw [getAttr, g8]
    exact vfc
  · show getAttr s8 P3 "points" = some (.pts pts)
    rw [getAttr, g8]
    exact vpts
  · show getAttr s8 P3 "extent" = some (.extent ext)
    rw [getAttr, g8]
    exact vext
  · show getAttr s8 P3 "faceVertexIndices" = some (.ints cubeFaceVertexIndices)
    rw [getAttr, g8]
    exact vfvi
  · show _create_cube_mesh s8 ext pts dp = (s8, P3)
    exact run2

/-! ## Claim theorems -/

set_option maxRecDepth 8000 in
/-- Claim C3, counterexample: on a prim whose subtree has a geometry hidden by
a visibility toggle (extent `[(5,5,5),(6,6,6)]`) next to a visible one (extent
`[(0,0,0),(1,1,1)]`), `_get_extent` returns `[(0,0,0),(1,1,1)]` — the hidden
node does NOT contribute — whereas the bound computed with visibility culling
ignored would be `[(0,0,0),(6,6,6)]`.  So the claim that visibility-based
culling is ignored is false of the code, which passes `ignoreVisibility=False`. -/
theorem get_extent_visibility_cex :
    _get_extent scenarioStage (.prim (some ("/env", partlyHiddenNode))) =
      .ok { min := (0, 0, 0), max := (1, 1, 1) } ∧
    computeWorldBound { getExtentBBoxCache with ignoreVisibility := true }
        (some ("/env", partlyHiddenNode)) =
      .ok { min := (0, 0, 0), max := (6, 6, 6) } ∧
    ({ min := (0, 0, 0), max := (1, 1, 1) } : Range3d) ≠
      { min := (0, 0, 0), max := (6, 6, 6) } := by
  refine ⟨by with_unfolding_all rfl, by with_unfolding_all rfl, fun h => ?_⟩
  have h1 := congrArg (fun r : Range3d => r.max.1) h
  norm_num at h1

/-- Claim C3 (amended): `_get_extent` computes the aligned world bound of the
node's subtree using the `BBoxCache` built with the default time sample and a
purpose filter of exactly "default" and "render", but with visibility-based
culling RESPECTED (`ignoreVisibility=False`): a record is included iff its
purpose is "default" or "render" AND it is visible, so hidden nodes do not
contribute to the returned bound. -/
theorem get_extent_filter_semantics :
    (∀ (stage : SourceStage) (path : String) (node : PrimNode),
      _get_extent stage (.prim (some (path, node))) =
        .ok (computeAlignedBox (boundOfRecords getExtentBBoxCache node.subtree))) ∧
    getExtentBBoxCache.time = .default ∧
    getExtentBBoxCache.includedPurposes = ["default", "render"] ∧
    getExtentBBoxCache.useExtentsHint = false ∧
    getExtentBBoxCache.ignoreVisibility = false ∧
    (∀ g : GeomRecord, includeRecord getExtentBBoxCache g =
      ((g.purpose == "default" || g.purpose == "render") && g.visible)) := by
  refine ⟨fun stage path node => rfl, rfl, rfl, rfl, rfl, fun g => ?_⟩
  have hbe : ∀ a b : String, (a == b) = decide (a = b) := fun a b => rfl
  simp [includeRecord, getExtentBBoxCache, List.contains, hbe]

/-- Claim C9, counterexample: `_get_extent` on a path string that does not
resolve fails with the generic `ValueError` wrap (`"Error in get_extent: ..."`),
the same failure used for bound-query errors — not with a distinct
`NodeNotFoundError`. -/
theorem get_extent_unresolved_cex :
    _get_extent scenarioStage (.path "/missing") =
      .error (.valueError "Error in get_extent: Invalid prim") ∧
    resultIsNodeNotFound (_get_extent scenarioStage (.path "/missing")) = false := by
  exact ⟨by with_unfolding_all rfl, by with_unfolding_all rfl⟩

/-- Claim C9 (amended): for every stage and every path string that does not
resolve to a prim, `GetPrimAtPath` yields an invalid prim without raising, and
`_get_extent` then fails inside its `try:` with the same re-raised
`ValueError("Error in get_extent: ...")` used for bound-query failures; no
distinct `NodeNotFoundError` is produced. -/
theorem get_extent_unresolved_wraps_valueerror :
    ∀ (stage : SourceStage) (p : String),
      findPrim stage.prims p = none →
      _get_extent stage (.path p) =
        .error (.valueError "Error in get_extent: Invalid prim") ∧
      resultIsNodeNotFound (_get_extent stage (.path p)) = false := by
  intro stage p h
  have hres : _get_extent stage (.path p) =
      .error (.valueError "Error in get_extent: Invalid prim") := by
    simp only [_get_extent, SourceStage.GetPrimAtPath, h, computeWorldBound]
    with_unfolding_all rfl
  exact ⟨hres, by rw [hres]; rfl⟩

/-- Witness for the amended Claim C9 theorem, at the scenario stage and the
unresolvable path `"/missing"`. -/
theorem get_extent_unresolved_wraps_valueerror_witness :
    _get_extent scenarioStage (.path "/missing") =
      .error (.valueError "Error in get_extent: Invalid prim") ∧
    resultIsNodeNotFound (_get_extent scenarioStage (.path "/missing")) = false :=
  get_extent_unresolved_wraps_valueerror scenarioStage "/missing" (by with_unfolding_all rfl)

set_option maxRecDepth 8000 in
/-- Claim C1: for every bounding range returned by `_get_vertex_bbox` as
`[[x0,y0,z0],[x1,y1,z1]]`, the accompanying corner list is exactly the 8
points `(x1,y0,z1), (x0,y0,z1), (x1,y1,z1), (x0,y1,z1), (x0,y0,z0),
(x1,y0,z0), (x0,y1,z0), (x1,y1,z0)` in this order; and on the scenario stage
with world bound `min=(-1,-2,-3)`, `max=(4,5,6)` the extents are stored as
`[[-1,-2,-3],[4,5,6]]`, corner #1 is `(4,-2,6)` and corner #5 is `(-1,-2,-3)`. -/
theorem vertex_bbox_corner_order :
    (∀ (stage : SourceStage) (pr : PrimRef) (x0 y0 z0 x1 y1 z1 : ℚ) (pts : List Vec3),
      _get_vertex_bbox stage pr = .ok ([[x0, y0, z0], [x1, y1, z1]], pts) →
      pts = [(x1, y0, z1), (x0, y0, z1), (x1, y1, z1), (x0, y1, z1),
             (x0, y0, z0), (x1, y0, z0), (x0, y1, z0), (x1, y1, z0)]) ∧
    _get_vertex_bbox scenarioStage (.path "/asset") =
      .ok ([[-1, -2, -3], [4, 5, 6]],
           [(4, -2, 6), (-1, -2, 6), (4, 5, 6), (-1, 5, 6),
            (-1, -2, -3), (4, -2, -3), (-1, 5, -3), (4, 5, -3)]) := by
  refine ⟨fun stage pr x0 y0 z0 x1 y1 z1 pts h => get_vertex_bbox_corners stage pr h, ?_⟩
  with_unfolding_all rfl

set_option maxRecDepth 8000 in
/-- Witness for Claim C1, instantiating the corner-order implication at the
scenario stage, whose computed extents are `[[-1,-2,-3],[4,5,6]]`. -/
theorem vertex_bbox_corner_order_witness :
    ([(4, -2, 6), (-1, -2, 6), (4, 5, 6), (-1, 5, 6),
      (-1, -2, -3), (4, -2, -3), (-1, 5, -3), (4, 5, -3)] : List Vec3) =
    [(4, -2, 6), (-1, -2, 6), (4, 5, 6), (-1, 5, 6),
     (-1, -2, -3), (4, -2, -3), (-1, 5, -3), (4, 5, -3)] :=
  vertex_bbox_corner_order.1 scenarioStage (.path "/asset") (-1) (-2) (-3) 4 5 6 _
    (by with_unfolding_all rfl)

/-- Claim C4: during `_get_vertex_bbox`'s numeric normalization, a coordinate
whose rendering is scientific (contains the `"e"` marker) is replaced by its
mantissa — which always changes the value — e.g. `1.2e-5` becomes `1.2`; a
coordinate whose rendering has no `"e"` passes through unchanged; and the same
`convert_to_float` is applied to all six min/max coordinates. -/
theorem convert_to_float_mantissa_rule :
    (∀ (q m : ℚ) (e : ℤ), pyRender q = .sci m e →
      convert_to_float q = m ∧ convert_to_float q ≠ q) ∧
    (∀ q v : ℚ, pyRender q = .plain v → convert_to_float q = q) ∧
    convert_to_float (12 / 1000000) = 12 / 10 ∧
    (∀ (stage : SourceStage) (pr : PrimRef) (r : Range3d),
      _get_extent stage pr = .ok r →
      _get_vertex_bbox stage pr = .ok
        ([[convert_to_float r.min.1, convert_to_float r.min.2.1, convert_to_float r.min.2.2],
          [convert_to_float r.max.1, convert_to_float r.max.2.1, convert_to_float r.max.2.2]],
         [(convert_to_float r.max.1, convert_to_float r.min.2.1, convert_to_float r.max.2.2),
          (convert_to_float r.min.1, convert_to_float r.min.2.1, convert_to_float r.max.2.2),
          (convert_to_float r.max.1, convert_to_float r.max.2.1, convert_to_float r.max.2.2),
          (convert_to_float r.min.1, convert_to_float r.max.2.1, convert_to_float r.max.2.2),
          (convert_to_float r.min.1, convert_to_float r.min.2.1, convert_to_float r.min.2.2),
          (convert_to_float r.max.1, convert_to_float r.min.2.1, convert_to_float r.min.2.2),
          (convert_to_float r.min.1, convert_to_float r.max.2.1, convert_to_float r.min.2.2),
          (convert_to_float r.max.1, convert_to_float r.max.2.1, convert_to_float r.min.2.2)])) := by
  refine ⟨fun q m e h => ⟨(pyRender_sci_parts h).1, convert_changes_sci h⟩,
    fun q v h => pyRender_plain_parts h,
    by with_unfolding_all rfl,
    fun stage pr r h => get_vertex_bbox_ok stage pr r h⟩

/-- Witness for Claim C4, at `q = 1.2e-5` (rendered `.sci 1.2 (-5)`): the
normalization returns the mantissa `1.2` and changes the value. -/
theorem convert_to_float_mantissa_rule_witness :
    convert_to_float (12 / 1000000) = 12 / 10 ∧ convert_to_float (12 / 1000000) ≠ 12 / 1000000 :=
  convert_to_float_mantissa_rule.1 (12 / 1000000) (12 / 10) (-5) (by with_unfolding_all rfl)

/-- Claim C10: `convert_to_float` is idempotent — applying it twice equals
applying it once — because the value returned for a scientifically-rendered
input renders positionally (no `"e"` marker) and is then passed through
unchanged. -/
theorem convert_to_float_idempotent :
    (∀ q : ℚ, convert_to_float (convert_to_float q) = convert_to_float q) ∧
    (∀ (q m : ℚ) (e : ℤ), pyRender q = .sci m e →
      pyRender (convert_to_float q) = .plain (convert_to_float q)) :=
  ⟨convert_to_float_idem, fun q m e h => convert_sci_renders_plain h⟩

/-- Witness for Claim C10, at `q = 1.2e-5`: the returned mantissa renders
positionally. -/
theorem convert_to_float_idempotent_witness :
    pyRender (convert_to_float (12 / 1000000)) = .plain (convert_to_float (12 / 1000000)) :=
  convert_to_float_idempotent.2 (12 / 1000000) (12 / 10) (-5) (by with_unfolding_all rfl)

/-- Claim C5: whenever the bounding range `_get_vertex_bbox` returns has
`min ≠ max` on every axis, the 8 corner points are pairwise distinct, and
each corner's coordinates are drawn component-wise from `{min, max}` per the
fixed assignment table. -/
theorem vertex_bbox_distinct_corners :
    ∀ (stage : SourceStage) (pr : PrimRef) (x0 y0 z0 x1 y1 z1 : ℚ) (pts : List Vec3),
      _get_vertex_bbox stage pr = .ok ([[x0, y0, z0], [x1, y1, z1]], pts) →
      x0 ≠ x1 → y0 ≠ y1 → z0 ≠ z1 →
      pts.length = 8 ∧ pts.Nodup ∧
      ∀ p ∈ pts, (p.1 = x0 ∨ p.1 = x1) ∧ (p.2.1 = y0 ∨ p.2.1 = y1) ∧
        (p.2.2 = z0 ∨ p.2.2 = z1) := by
  intro stage pr x0 y0 z0 x1 y1 z1 pts h hx hy hz
  rw [get_vertex_bbox_corners stage pr h]
  have hx' : x1 ≠ x0 := hx.symm
  have hy' : y1 ≠ y0 := hy.symm
  have hz' : z1 ≠ z0 := hz.symm
  refine ⟨rfl, ?_, ?_⟩
  · simp [List.nodup_cons, List.mem_cons, Prod.mk.injEq, hx, hx', hy, hy', hz, hz']
  · intro p hp
    simp only [List.mem_cons, List.not_mem_nil, or_false] at hp
    rcases hp with rfl | rfl | rfl | rfl | rfl | rfl | rfl | rfl <;> simp

/-- Witness for Claim C5, at the scenario stage with range
`[(-1,-2,-3),(4,5,6)]`, distinct on every axis. -/
theorem vertex_bbox_distinct_corners_witness :
    ([(4, -2, 6), (-1, -2, 6), (4, 5, 6), (-1, 5, 6),
      (-1, -2, -3), (4, -2, -3), (-1, 5, -3), (4, 5, -3)] : List Vec3).length = 8 ∧
    ([(4, -2, 6), (-1, -2, 6), (4, 5, 6), (-1, 5, 6),
      (-1, -2, -3), (4, -2, -3), (-1, 5, -3), (4, 5, -3)] : List Vec3).Nodup ∧
    ∀ p ∈ ([(4, -2, 6), (-1, -2, 6), (4, 5, 6), (-1, 5, 6),
      (-1, -2, -3), (4, -2, -3), (-1, 5, -3), (4, 5, -3)] : List Vec3),
      (p.1 = -1 ∨ p.1 = 4) ∧ (p.2.1 = -2 ∨ p.2.1 = 5) ∧ (p.2.2 = -3 ∨ p.2.2 = 6) :=
  vertex_bbox_distinct_corners scenarioStage (.path "/asset") (-1) (-2) (-3) 4 5 6 _
    (by with_unfolding_all rfl) (by norm_num) (by norm_num) (by norm_num)

/-- Claim C6: the authored `faceVertexIndices`, read as 6 consecutive groups
of 4 according to `faceVertexCounts`, uses only values in `[0,7]`, covers
every index 0 through 7, and each face's 4 corner points — selected from the
corner list produced by `_get_vertex_bbox` — are coplanar. -/
theorem face_indices_valid_and_coplanar :
    ∀ (stage : SourceStage) (pr : PrimRef) (x0 y0 z0 x1 y1 z1 : ℚ) (pts : List Vec3),
      _get_vertex_bbox stage pr = .ok ([[x0, y0, z0], [x1, y1, z1]], pts) →
      (∀ (st : TargetStage) (ext : List (List ℚ)) (vp : List Vec3) (dp : String),
        getAttr (_create_cube_mesh st ext vp dp).1 (_create_cube_mesh st ext vp dp).2
          "faceVertexIndices" = some (.ints cubeFaceVertexIndices)) ∧
      (splitByCounts cubeFaceVertexCounts cubeFaceVertexIndices).length = 6 ∧
      (∀ g ∈ splitByCounts cubeFaceVertexCounts cubeFaceVertexIndices, g.length = 4) ∧
      (∀ i ∈ cubeFaceVertexIndices, 0 ≤ i ∧ i ≤ 7) ∧
      (∀ j : Fin 8, (j : ℤ) ∈ cubeFaceVertexIndices) ∧
      (∀ g ∈ splitByCounts cubeFaceVertexCounts cubeFaceVertexIndices,
        CoplanarList (selectPoints pts g)) := by
  intro stage pr x0 y0 z0 x1 y1 z1 pts h
  have hpts := get_vertex_bbox_corners stage pr h
  refine ⟨?_, by decide, by decide, by decide, by decide, ?_⟩
  · intro st ext vp dp
    have hspec := create_cube_mesh_spec st ext vp dp
    rw [hspec.1]
    exact hspec.2.2.2.2.2.2.2.2.1
  · intro g hg
    have hsplit : splitByCounts cubeFaceVertexCounts cubeFaceVertexIndices =
        [[0, 1, 3, 2], [4, 5, 7, 6], [6, 7, 2, 3], [5, 4, 1, 0], [5, 0, 2, 7],
         [1, 4, 6, 3]] := by decide
    rw [hsplit] at hg
    rw [hpts]
    simp only [List.mem_cons, List.not_mem_nil, or_false] at hg
    rcases hg with rfl | rfl | rfl | rfl | rfl | rfl
    · show CoplanarList [(x1, y0, z1), (x0, y0, z1), (x0, y1, z1), (x1, y1, z1)]
      exact ⟨0, 0, 1, z1, by norm_num, by
        intro p hp
        simp only [List.mem_cons, List.not_mem_nil, or_false] at hp
        rcases hp with rfl | rfl | rfl | rfl <;> ring⟩
    · show CoplanarList [(x0, y0, z0), (x1, y0, z0), (x1, y1, z0), (x0, y1, z0)]
      exact ⟨0, 0, 1, z0, by norm_num, by
        intro p hp
        simp only [List.mem_cons, List.not_mem_nil, or_false] at hp
        rcases hp with rfl | rfl | rfl | rfl <;> ring⟩
    · show CoplanarList [(x0, y1, z0), (x1, y1, z0), (x1, y1, z1), (x0, y1, z1)]
      exact ⟨0, 1, 0, y1, by norm_num, by
        intro p hp
        simp only [List.mem_cons, List.not_mem_nil, or_false] at hp
        rcases hp with rfl | rfl | rfl | rfl <;> ring⟩
    · show CoplanarList [(x1, y0, z0), (x0, y0, z0), (x0, y0, z1), (x1, y0, z1)]
      exact ⟨0, 1, 0, y0, by norm_num, by
        intro p hp
        simp only [List.mem_cons, List.not_mem_nil, or_false] at hp
        rcases hp with rfl | rfl | rfl | rfl <;> ring⟩
    · show CoplanarList [(x1, y0, z0), (x1, y0, z1), (x1, y1, z1), (x1, y1, z0)]
      exact ⟨1, 0, 0, x1, by norm_num, by
        intro p hp
        simp only [List.mem_cons, List.not_mem_nil, or_false] at hp
        rcases hp with rfl | rfl | rfl | rfl <;> ring⟩
    · show CoplanarList [(x0, y0, z1), (x0, y0, z0), (x0, y1, z0), (x0, y1, z1)]
      exact ⟨1, 0, 0, x0, by norm_num, by
        intro p hp
        simp only [List.mem_cons, List.not_mem_nil, or_false] at hp
        rcases hp with rfl | rfl | rfl | rfl <;> ring⟩

set_option maxRecDepth 8000 in
/-- Witness for Claim C6, at the scenario stage's concrete corner list. -/
theorem face_indices_valid_and_coplanar_witness :
    (∀ (st : TargetStage) (ext : List (List ℚ)) (vp : List Vec3) (dp : String),
      getAttr (_create_cube_mesh st ext vp dp).1 (_create_cube_mesh st ext vp dp).2
        "faceVertexIndices" = some (.ints cubeFaceVertexIndices)) ∧
    (splitByCounts cubeFaceVertexCounts cubeFaceVertexIndices).length = 6 ∧
    (∀ g ∈ splitByCounts cubeFaceVertexCounts cubeFaceVertexIndices, g.length = 4) ∧
    (∀ i ∈ cubeFaceVertexIndices, 0 ≤ i ∧ i ≤ 7) ∧
    (∀ j : Fin 8, (j : ℤ) ∈ cubeFaceVertexIndices) ∧
    (∀ g ∈ splitByCounts cubeFaceVertexCounts cubeFaceVertexIndices,
      CoplanarList (selectPoints
        ([(4, -2, 6), (-1, -2, 6), (4, 5, 6), (-1, 5, 6),
          (-1, -2, -3), (4, -2, -3), (-1, 5, -3), (4, 5, -3)] : List Vec3) g)) :=
  face_indices_valid_and_coplanar scenarioStage (.path "/asset") (-1) (-2) (-3) 4 5 6 _
    (by with_unfolding_all rfl)

/-- Claim C2: every invocation of `_create_cube_mesh` authors on the mesh node
`faceVertexCounts = [4,4,4,4,4,4]` and `faceVertexIndices =
[0,1,3,2, 4,5,7,6, 6,7,2,3, 5,4,1,0, 5,0,2,7, 1,4,6,3]` — the same fixed
constants for every stage, bounding range and corner set. -/
theorem cube_mesh_topology_constants :
    ∀ (stage : TargetStage) (ext : List (List ℚ)) (pts : List Vec3) (dp : String),
      getAttr (_create_cube_mesh stage ext pts dp).1 (dp ++ "/model/guide/box")
        "faceVertexCounts" = some (.ints [4, 4, 4, 4, 4, 4]) ∧
      getAttr (_create_cube_mesh stage ext pts dp).1 (dp ++ "/model/guide/box")
        "faceVertexIndices" = some (.ints
          [0, 1, 3, 2, 4, 5, 7, 6, 6, 7, 2, 3, 5, 4, 1, 0, 5, 0, 2, 7, 1, 4, 6, 3]) := by
  intro stage ext pts dp
  have hspec := create_cube_mesh_spec stage ext pts dp
  exact ⟨hspec.2.2.2.2.2.1, hspec.2.2.2.2.2.2.2.2.1⟩

/-- Claim C7: `_create_cube_mesh` creates — idempotently on path — the
hierarchy `<parent>` (Xform), `<parent>/model` (Xform),
`<parent>/model/guide` (Xform), `<parent>/model/guide/box` (Mesh), authors
the four attributes `faceVertexCounts`, `points` (= the given corner set),
`faceVertexIndices` and `extent` (= the given 2-element min/max array) on the
mesh node, and returns that mesh node; running it again with the same inputs
leaves the stage unchanged. -/
theorem create_cube_mesh_builds_hierarchy :
    ∀ (stage : TargetStage) (ext : List (List ℚ)) (pts : List Vec3) (dp : String),
      (_create_cube_mesh stage ext pts dp).2 = dp ++ "/model/guide/box" ∧
      primTypeAt (_create_cube_mesh stage ext pts dp).1 dp = some "Xform" ∧
      primTypeAt (_create_cube_mesh stage ext pts dp).1 (dp ++ "/model") = some "Xform" ∧
      primTypeAt (_create_cube_mesh stage ext pts dp).1 (dp ++ "/model/guide") =
        some "Xform" ∧
      primTypeAt (_create_cube_mesh stage ext pts dp).1 (dp ++ "/model/guide/box") =
        some "Mesh" ∧
      getAttr (_create_cube_mesh stage ext pts dp).1 (dp ++ "/model/guide/box")
        "faceVertexCounts" = some (.ints cubeFaceVertexCounts) ∧
      getAttr (_create_cube_mesh stage ext pts dp).1 (dp ++ "/model/guide/box")
        "points" = some (.pts pts) ∧
      getAttr (_create_cube_mesh stage ext pts dp).1 (dp ++ "/model/guide/box")
        "extent" = some (.extent ext) ∧
      getAttr (_create_cube_mesh stage ext pts dp).1 (dp ++ "/model/guide/box")
        "faceVertexIndices" = some (.ints cubeFaceVertexIndices) ∧
      _create_cube_mesh (_create_cube_mesh stage ext pts dp).1 ext pts dp =
        _create_cube_mesh stage ext pts dp :=
  fun stage ext pts dp => create_cube_mesh_spec stage ext pts dp

/-- Claim C8: when the source path does not exist, `create_auto_guide` fails
with `FileNotFoundError` (the spec's `SourceNotFoundError`) and leaves the
world untouched: no scene-store call is logged and no target file is created
or modified. -/
theorem create_auto_guide_missing_source :
    ∀ (w : World) (geo_path guide_path : String),
      pathExists w geo_path = false →
      create_auto_guide w geo_path guide_path =
        (.error (.fileNotFound ("The file: " ++ geo_path ++ " does not exist.")), w) := by
  intro w geo_path guide_path h
  simp [create_auto_guide, h]

/-- Witness for Claim C8, at the empty world where `"geo.usda"` does not
exist. -/
theorem create_auto_guide_missing_source_witness :
    create_auto_guide emptyWorld "geo.usda" "guide.usda" =
      (.error (.fileNotFound ("The file: " ++ "geo.usda" ++ " does not exist.")), emptyWorld) :=
  create_auto_guide_missing_source emptyWorld "geo.usda" "guide.usda" rfl
